import Mathlib

/-!
Verification of the filter/query/limit core of the Investigating-Near-Earth-Objects
repository (src/models.py, src/filters.py), via a shallow embedding in Lean 4.

Modelling conventions:
* Python floats are modelled as `Option ℚ`: `none` is the NaN sentinel
  (`float('nan')`), `some q` a finite float of value `q`.  NaN's IEEE
  comparison behaviour (every comparison with NaN is false) is embedded in
  the comparison functions below.
* Calendar values are modelled structurally (`Date`, `DateTime`) with the
  lexicographic comparisons Python's `datetime.date` / `datetime.datetime`
  provide; `DateTime.date` is `datetime.date()`, truncating the time of day.
* Raw CSV fields that hold "a possibly-empty numeric string" are modelled by
  `NumField`: either the empty string or a well-formed numeric literal with
  its value.  Malformed numeric strings raise at the loader boundary and are
  out of scope here.
* Python exceptions are modelled with `Except PyErr`.
-/

/-- A calendar date (the value of `datetime.date`). -/
structure Date where
  year : Int
  month : Nat
  day : Nat
deriving DecidableEq, Repr

/-- A calendar timestamp at minute precision (the value of `datetime.datetime`
as used by this program; the data set has no seconds). -/
structure DateTime where
  date : Date
  hour : Nat
  minute : Nat
deriving DecidableEq, Repr

/-- Lexicographic order on dates, as Python compares `datetime.date` values. -/
def Date.le (a b : Date) : Bool :=
  a.year < b.year ∨ (a.year = b.year ∧
    (a.month < b.month ∨ (a.month = b.month ∧ a.day ≤ b.day)))

/-- Lexicographic order on timestamps, as Python compares `datetime.datetime`. -/
def DateTime.le (a b : DateTime) : Bool :=
  (Date.le a.date b.date ∧ a.date ≠ b.date) ∨ (a.date = b.date ∧
    (a.hour < b.hour ∨ (a.hour = b.hour ∧ a.minute ≤ b.minute)))

/-- A raw CSV field holding either the empty string or a well-formed numeric
literal of value `q` (the only shapes the NASA data presents; malformed
numerics would raise `ValueError` at the loader boundary, out of scope). -/
inductive NumField where
  | empty : NumField
  | num (q : ℚ) : NumField
deriving DecidableEq, Repr

/-- Python values flowing through the filter machinery. `vFloat none` is NaN. -/
inductive PyVal where
  | vDate (d : Date) : PyVal
  | vDateTime (t : DateTime) : PyVal
  | vFloat (q : Option ℚ) : PyVal
  | vBool (b : Bool) : PyVal
deriving DecidableEq, Repr

/-- Python exceptions relevant to this code. -/
inductive PyErr where
  | unsupportedCriterion : PyErr
  | attributeError : PyErr
  | typeError : PyErr
deriving DecidableEq, Repr

/-- The three comparators `create_filters` draws from the `operator` module. -/
inductive Op where
  | eq : Op
  | ge : Op
  | le : Op
deriving DecidableEq, Repr

/-- Python `==` on the values above.  NaN equals nothing (including NaN);
`bool` participates as an integer (`True == 1.0`); values of unrelated
types compare unequal rather than raising. -/
def pyEq : PyVal → PyVal → Bool
  | .vFloat (some a), .vFloat (some b) => a = b
  | .vFloat _, .vFloat _ => false
  | .vBool a, .vBool b => a = b
  | .vBool a, .vFloat (some q) => (if a then (1 : ℚ) else 0) = q
  | .vFloat (some q), .vBool b => q = (if b then (1 : ℚ) else 0)
  | .vDate a, .vDate b => a = b
  | .vDateTime a, .vDateTime b => a = b
  | _, _ => false

/-- Python `<=` on the values above; ordering unrelated types raises
`TypeError` (so does ordering a `date` against a `datetime`). -/
def pyLe : PyVal → PyVal → Except PyErr Bool
  | .vFloat (some a), .vFloat (some b) => .ok (a ≤ b)
  | .vFloat _, .vFloat _ => .ok false
  | .vBool a, .vBool b => .ok ((if a then (1 : ℚ) else 0) ≤ (if b then 1 else 0))
  | .vBool a, .vFloat (some q) => .ok ((if a then (1 : ℚ) else 0) ≤ q)
  | .vFloat (some q), .vBool b => .ok (q ≤ (if b then (1 : ℚ) else 0))
  | .vBool _, .vFloat none => .ok false
  | .vFloat none, .vBool _ => .ok false
  | .vDate a, .vDate b => .ok (Date.le a b)
  | .vDateTime a, .vDateTime b => .ok (DateTime.le a b)
  | _, _ => .error .typeError

/-- Python `>=`, by symmetry with `pyLe`. -/
def pyGe (a b : PyVal) : Except PyErr Bool := pyLe b a

/-- Apply one of the three comparators, left operand first:
`operator.eq/ge/le (l, r)`. -/
def applyOp : Op → PyVal → PyVal → Except PyErr Bool
  | .eq, l, r => .ok (pyEq l r)
  | .ge, l, r => pyGe l r
  | .le, l, r => pyLe l r

/-- `NearEarthObject` after construction (models.py lines 33-45): `name` is
`None` for an empty input name; `diameter` is `none` for the NaN sentinel. -/
structure NearEarthObject where
  designation : String
  name : Option String
  diameter : Option ℚ
  hazardous : Bool
deriving DecidableEq, Repr

/-- The keyword row a `NearEarthObject` is built from (the CSV columns the
constructor reads). -/
structure NeoInfo where
  pdes : String
  name : String
  diameter : NumField
  pha : String
deriving DecidableEq, Repr

/-- `NearEarthObject.__init__` (models.py lines 33-45):
`diameter = float('nan') if len(info['diameter']) == 0 else float(info['diameter'])`,
`hazardous = True if info['pha'] == 'Y' else False`. -/
def NearEarthObject.fromInfo (info : NeoInfo) : NearEarthObject :=
  { designation := info.pdes
  , name := if info.name.length = 0 then none else some info.name
  , diameter := match info.diameter with
      | .empty => none
      | .num q => some q
  , hazardous := if info.pha = "Y" then true else false }

/-- `CloseApproach` after construction and linking (models.py lines 83-95):
`neo` starts as `None` and is assigned its `NearEarthObject` by the
`NEODatabase` linker; the filters only ever run on linked records, so the
model carries the linked NEO directly. -/
structure CloseApproach where
  designation : String
  time : DateTime
  distance : ℚ
  velocity : ℚ
  neo : NearEarthObject
deriving DecidableEq, Repr

/-- `getattr(approach, attr)` for the approach-level attributes the filter
machinery reads; other names raise `AttributeError` in this model (the
program only ever passes the five names of `mapping_param`'s codomain). -/
def getattrApproach (a : CloseApproach) : String → Except PyErr PyVal
  | "time" => .ok (.vDateTime a.time)
  | "distance" => .ok (.vFloat (some a.distance))
  | "velocity" => .ok (.vFloat (some a.velocity))
  | _ => .error .attributeError

/-- `getattr(neo, attr)` for the object-level attributes the filter machinery
reads. -/
def getattrNeo (n : NearEarthObject) : String → Except PyErr PyVal
  | "hazardous" => .ok (.vBool n.hazardous)
  | "diameter" => .ok (.vFloat n.diameter)
  | _ => .error .attributeError

/-- `res.date()`: defined on `datetime` values, an error otherwise. -/
def pyDateOf : PyVal → Except PyErr PyVal
  | .vDateTime t => .ok (.vDate t.date)
  | _ => .error .attributeError

/-- The state of an `AttributeFilter` (filters.py lines 40-52): a comparator
and a reference value.  `GetAttribute.__init__` stores nothing more (its
`attr` argument is discarded), so both classes share this structure. -/
structure AttributeFilter where
  op : Op
  value : PyVal
deriving DecidableEq, Repr

/-- `AttributeFilter.get` (filters.py lines 58-69): the base class always
raises `UnsupportedCriterionError`. -/
def AttributeFilter.baseGet (_approach : CloseApproach) (_attr_interest : String) :
    Except PyErr PyVal :=
  .error .unsupportedCriterion

/-- `GetAttribute.get` (filters.py lines 81-90): fetch `attr_interest` from
the linked NEO when it is `hazardous` or `diameter`, else from the approach
itself; truncate `time` to its date component. -/
def GetAttribute.get (approach : CloseApproach) (attr_interest : String) :
    Except PyErr PyVal := do
  let res ←
    if attr_interest = "hazardous" ∨ attr_interest = "diameter" then
      getattrNeo approach.neo attr_interest
    else
      getattrApproach approach attr_interest
  if attr_interest = "time" then pyDateOf res else pure res

/-- `AttributeFilter.__call__` (filters.py lines 54-56) specialised to a given
`get` method: `self.op(self.get(approach, attr_interest), self.value)`; an
exception in `get` propagates before the comparator runs. -/
def callWith (get : CloseApproach → String → Except PyErr PyVal)
    (f : AttributeFilter) (approach : CloseApproach) (attr_interest : String) :
    Except PyErr Bool := do
  applyOp f.op (← get approach attr_interest) f.value

/-- Calling a bare `AttributeFilter`: dispatches to the base `get`. -/
def AttributeFilter.call (f : AttributeFilter) (approach : CloseApproach)
    (attr_interest : String) : Except PyErr Bool :=
  callWith AttributeFilter.baseGet f approach attr_interest

/-- Calling a `GetAttribute` filter: dispatches to `GetAttribute.get`. -/
def GetAttribute.call (f : AttributeFilter) (approach : CloseApproach)
    (attr_interest : String) : Except PyErr Bool :=
  callWith GetAttribute.get f approach attr_interest

/-- `GetAttribute.__init__(op, value, attr)` (filters.py lines 78-79): it
calls `super().__init__(op, value)` and discards `attr`. -/
def GetAttribute.make (op : Op) (value : PyVal) (_attr : String) : AttributeFilter :=
  { op := op, value := value }

/-- The value of one set command-line option. -/
inductive ArgVal where
  | aDate (d : Date) : ArgVal
  | aFloat (q : ℚ) : ArgVal
  | aBool (b : Bool) : ArgVal
deriving DecidableEq, Repr

/-- The Python value a set option's argument carries into a filter. -/
def ArgVal.toPyVal : ArgVal → PyVal
  | .aDate d => .vDate d
  | .aFloat q => .vFloat (some q)
  | .aBool b => .vBool b

/-- The ten keyword arguments of `create_filters` (filters.py lines 93-97),
each `None` (unset) by default. -/
structure FilterArgs where
  date : Option Date := none
  start_date : Option Date := none
  end_date : Option Date := none
  distance_min : Option ℚ := none
  distance_max : Option ℚ := none
  velocity_min : Option ℚ := none
  velocity_max : Option ℚ := none
  diameter_min : Option ℚ := none
  diameter_max : Option ℚ := none
  hazardous : Option Bool := none
deriving DecidableEq, Repr

/-- One entry of `arg_dict`: present exactly when the option is set. -/
def optEntry (name : String) : Option ArgVal → List (String × ArgVal)
  | none => []
  | some v => [(name, v)]

/-- `arg_dict` (filters.py lines 128-129): the local arguments in signature
order, keeping only those that are not `None`. -/
def argDict (a : FilterArgs) : List (String × ArgVal) :=
  optEntry "date" (a.date.map .aDate) ++
  optEntry "start_date" (a.start_date.map .aDate) ++
  optEntry "end_date" (a.end_date.map .aDate) ++
  optEntry "distance_min" (a.distance_min.map .aFloat) ++
  optEntry "distance_max" (a.distance_max.map .aFloat) ++
  optEntry "velocity_min" (a.velocity_min.map .aFloat) ++
  optEntry "velocity_max" (a.velocity_max.map .aFloat) ++
  optEntry "diameter_min" (a.diameter_min.map .aFloat) ++
  optEntry "diameter_max" (a.diameter_max.map .aFloat) ++
  optEntry "hazardous" (a.hazardous.map .aBool)

/-- `mapping_param` (filters.py lines 133-137).  In Python an absent key
raises `KeyError`; the function is only ever applied to keys of `arg_dict`,
all of which appear below, so the final catch-all is unreachable. -/
def mapping_param (arg : String) : String :=
  if arg = "date" ∨ arg = "start_date" ∨ arg = "end_date" then "time"
  else if arg = "distance_min" ∨ arg = "distance_max" then "distance"
  else if arg = "velocity_min" ∨ arg = "velocity_max" then "velocity"
  else if arg = "diameter_min" ∨ arg = "diameter_max" then "diameter"
  else if arg = "hazardous" then "hazardous"
  else ""

/-- The body of the `for arg, val in arg_dict.items()` loop (filters.py lines
147-167): the `if/elif` chain appends one `GetAttribute` per recognised
argument name and silently skips an unrecognised one (there is no `else`). -/
def filterLoopBody (p : String × ArgVal) : Option AttributeFilter :=
  if p.1 = "distance_min" then some (GetAttribute.make .ge p.2.toPyVal (mapping_param p.1))
  else if p.1 = "distance_max" then some (GetAttribute.make .le p.2.toPyVal (mapping_param p.1))
  else if p.1 = "velocity_min" then some (GetAttribute.make .ge p.2.toPyVal (mapping_param p.1))
  else if p.1 = "velocity_max" then some (GetAttribute.make .le p.2.toPyVal (mapping_param p.1))
  else if p.1 = "date" then some (GetAttribute.make .eq p.2.toPyVal (mapping_param p.1))
  else if p.1 = "start_date" then some (GetAttribute.make .ge p.2.toPyVal (mapping_param p.1))
  else if p.1 = "end_date" then some (GetAttribute.make .le p.2.toPyVal (mapping_param p.1))
  else if p.1 = "hazardous" then some (GetAttribute.make .eq p.2.toPyVal (mapping_param p.1))
  else if p.1 = "diameter_min" then some (GetAttribute.make .ge p.2.toPyVal (mapping_param p.1))
  else if p.1 = "diameter_max" then some (GetAttribute.make .le p.2.toPyVal (mapping_param p.1))
  else none

/-- `create_filters` (filters.py lines 127-169): returns the filter list and
`attr_of_interest`, with the early `return res, []` when no option is set. -/
def create_filters (a : FilterArgs) : List AttributeFilter × List String :=
  let arg_dict := argDict a
  let attr_of_interest := arg_dict.map (fun p => mapping_param p.1)
  if arg_dict.length = 0 then ([], [])
  else (arg_dict.filterMap filterLoopBody, attr_of_interest)

/-- `limit` (filters.py lines 172-183) on a finite sequence: `n == 0` is
first replaced by `None`, and `itertools.islice(it, None)` yields everything
while `islice(it, m)` yields the first `m` values. -/
def limit {α : Type} (iterator : List α) (n : Option Nat) : List α :=
  let n' := if n = some 0 then none else n
  match n' with
  | none => iterator
  | some m => iterator.take m

/-- Modelled from the spec: the query engine (`NEODatabase.query`, a module
not present under src/) "produce[s] a lazy sequence of records for which
every predicate evaluates true (logical AND across all predicates; an empty
predicate collection matches every record)", evaluating each predicate with
its positionally corresponding attribute name from `attr_of_interest`. -/
def MatchesAll (fs : List AttributeFilter) (attrs : List String)
    (a : CloseApproach) : Prop :=
  ∀ p ∈ fs.zip attrs, GetAttribute.call p.1 a p.2 = .ok true

deriving instance DecidableEq for Except

instance (fs : List AttributeFilter) (attrs : List String) (a : CloseApproach) :
    Decidable (MatchesAll fs attrs a) := by
  unfold MatchesAll; infer_instance

/-- The dictionary `NearEarthObject.serialize` builds into its local `res`
(models.py lines 65-66); note `potentially_hazardous` is `str(self.hazardous)`. -/
structure NeoSerialized where
  designation : String
  name : Option String
  diameter_km : Option ℚ
  potentially_hazardous : String
deriving DecidableEq, Repr

/-- The value assigned to `res` inside `NearEarthObject.serialize`. -/
def NearEarthObject.serializeComputed (neo : NearEarthObject) : NeoSerialized :=
  { designation := neo.designation
  , name := neo.name
  , diameter_km := neo.diameter
  , potentially_hazardous := if neo.hazardous then "True" else "False" }

/-- `NearEarthObject.serialize` (models.py lines 61-66): it assigns `res` and
then falls off the end of the function, so the call returns `None`. -/
def NearEarthObject.serialize (neo : NearEarthObject) : Option NeoSerialized :=
  let res := NearEarthObject.serializeComputed neo
  none

/-- Spec-side counterpart of the builder's predicate list, written from the
spec's mapping table (sect. 4.1 / claim C1): one predicate per set option with
the operator the table fixes, nothing for unset options. -/
def specPredicates (a : FilterArgs) : List AttributeFilter :=
  (a.date.toList.map fun d => ⟨.eq, .vDate d⟩) ++
  (a.start_date.toList.map fun d => ⟨.ge, .vDate d⟩) ++
  (a.end_date.toList.map fun d => ⟨.le, .vDate d⟩) ++
  (a.distance_min.toList.map fun q => ⟨.ge, .vFloat (some q)⟩) ++
  (a.distance_max.toList.map fun q => ⟨.le, .vFloat (some q)⟩) ++
  (a.velocity_min.toList.map fun q => ⟨.ge, .vFloat (some q)⟩) ++
  (a.velocity_max.toList.map fun q => ⟨.le, .vFloat (some q)⟩) ++
  (a.diameter_min.toList.map fun q => ⟨.ge, .vFloat (some q)⟩) ++
  (a.diameter_max.toList.map fun q => ⟨.le, .vFloat (some q)⟩) ++
  (a.hazardous.toList.map fun b => ⟨.eq, .vBool b⟩)

/-- Spec-side counterpart of `attr_of_interest`: the target attribute the
spec's mapping table fixes for each set option. -/
def specAttrs (a : FilterArgs) : List String :=
  (a.date.toList.map fun _ => "time") ++
  (a.start_date.toList.map fun _ => "time") ++
  (a.end_date.toList.map fun _ => "time") ++
  (a.distance_min.toList.map fun _ => "distance") ++
  (a.distance_max.toList.map fun _ => "distance") ++
  (a.velocity_min.toList.map fun _ => "velocity") ++
  (a.velocity_max.toList.map fun _ => "velocity") ++
  (a.diameter_min.toList.map fun _ => "diameter") ++
  (a.diameter_max.toList.map fun _ => "diameter") ++
  (a.hazardous.toList.map fun _ => "hazardous")

/-- A concrete input row whose diameter field is the empty string. -/
def sampleEmptyDiamInfo : NeoInfo := ⟨"1 CER", "", .empty, "N"⟩

/-- A concrete linked approach whose NEO carries the unknown-diameter
sentinel. -/
def sampleNanApproach : CloseApproach :=
  ⟨"433", ⟨⟨2020, 1, 1⟩, 2, 18⟩, 39/100, 372/100, ⟨"433", none, none, false⟩⟩

/-- A concrete input row whose diameter field is the well-formed numeric
string `-1`. -/
def negDiamInfo : NeoInfo := ⟨"2020 XX", "", .num (-1), "N"⟩

/-- A concrete input row with a non-negative numeric diameter field. -/
def erosInfo : NeoInfo := ⟨"433", "Eros", .num (1684/100), "N"⟩

lemma create_filters_eq (a : FilterArgs) :
    create_filters a = ((argDict a).filterMap filterLoopBody,
      (argDict a).map fun p => mapping_param p.1) := by
  unfold create_filters
  by_cases h : (argDict a).length = 0
  · have h0 : argDict a = [] := List.length_eq_zero.mp h
    simp [h0]
  · simp [h]

lemma fm_date (o : Option Date) :
    (optEntry "date" (o.map .aDate)).filterMap filterLoopBody
      = o.toList.map fun d => (⟨.eq, .vDate d⟩ : AttributeFilter) := by
  cases o <;> simp [optEntry, filterLoopBody, GetAttribute.make, ArgVal.toPyVal]

lemma fm_start_date (o : Option Date) :
    (optEntry "start_date" (o.map .aDate)).filterMap filterLoopBody
      = o.toList.map fun d => (⟨.ge, .vDate d⟩ : AttributeFilter) := by
  cases o <;> simp [optEntry, filterLoopBody, GetAttribute.make, ArgVal.toPyVal]

lemma fm_end_date (o : Option Date) :
    (optEntry "end_date" (o.map .aDate)).filterMap filterLoopBody
      = o.toList.map fun d => (⟨.le, .vDate d⟩ : AttributeFilter) := by
  cases o <;> simp [optEntry, filterLoopBody, GetAttribute.make, ArgVal.toPyVal]

lemma fm_distance_min (o : Option ℚ) :
    (optEntry "distance_min" (o.map .aFloat)).filterMap filterLoopBody
      = o.toList.map fun q => (⟨.ge, .vFloat (some q)⟩ : AttributeFilter) := by
  cases o <;> simp [optEntry, filterLoopBody, GetAttribute.make, ArgVal.toPyVal]

lemma fm_distance_max (o : Option ℚ) :
    (optEntry "distance_max" (o.map .aFloat)).filterMap filterLoopBody
      = o.toList.map fun q => (⟨.le, .vFloat (some q)⟩ : AttributeFilter) := by
  cases o <;> simp [optEntry, filterLoopBody, GetAttribute.make, ArgVal.toPyVal]

lemma fm_velocity_min (o : Option ℚ) :
    (optEntry "velocity_min" (o.map .aFloat)).filterMap filterLoopBody
      = o.toList.map fun q => (⟨.ge, .vFloat (some q)⟩ : AttributeFilter) := by
  cases o <;> simp [optEntry, filterLoopBody, GetAttribute.make, ArgVal.toPyVal]

lemma fm_velocity_max (o : Option ℚ) :
    (optEntry "velocity_max" (o.map .aFloat)).filterMap filterLoopBody
      = o.toList.map fun q => (⟨.le, .vFloat (some q)⟩ : AttributeFilter) := by
  cases o <;> simp [optEntry, filterLoopBody, GetAttribute.make, ArgVal.toPyVal]

lemma fm_diameter_min (o : Option ℚ) :
    (optEntry "diameter_min" (o.map .aFloat)).filterMap filterLoopBody
      = o.toList.map fun q => (⟨.ge, .vFloat (some q)⟩ : AttributeFilter) := by
  cases o <;> simp [optEntry, filterLoopBody, GetAttribute.make, ArgVal.toPyVal]

lemma fm_diameter_max (o : Option ℚ) :
    (optEntry "diameter_max" (o.map .aFloat)).filterMap filterLoopBody
      = o.toList.map fun q => (⟨.le, .vFloat (some q)⟩ : AttributeFilter) := by
  cases o <;> simp [optEntry, filterLoopBody, GetAttribute.make, ArgVal.toPyVal]

lemma fm_hazardous (o : Option Bool) :
    (optEntry "hazardous" (o.map .aBool)).filterMap filterLoopBody
      = o.toList.map fun b => (⟨.eq, .vBool b⟩ : AttributeFilter) := by
  cases o <;> simp [optEntry, filterLoopBody, GetAttribute.make, ArgVal.toPyVal]

lemma filterMap_argDict (a : FilterArgs) :
    (argDict a).filterMap filterLoopBody = specPredicates a := by
  unfold argDict specPredicates
  simp only [List.filterMap_append, fm_date, fm_start_date, fm_end_date,
    fm_distance_min, fm_distance_max, fm_velocity_min, fm_velocity_max,
    fm_diameter_min, fm_diameter_max, fm_hazardous]

lemma map_mapping_optEntry {β : Type} (n : String) (f : β → ArgVal) (o : Option β) :
    (optEntry n (o.map f)).map (fun p => mapping_param p.1)
      = o.toList.map fun _ => mapping_param n := by
  cases o <;> simp [optEntry]

lemma map_argDict (a : FilterArgs) :
    ((argDict a).map fun p => mapping_param p.1) = specAttrs a := by
  unfold argDict specAttrs
  simp only [List.map_append, map_mapping_optEntry]
  simp [mapping_param]

lemma mem_optEntry {n : String} {v : Option ArgVal} {p : String × ArgVal}
    (h : p ∈ optEntry n v) : p.1 = n := by
  cases v with
  | none => simp [optEntry] at h
  | some x =>
      simp [optEntry] at h
      rw [h]

lemma isSome_filterLoopBody_argDict {a : FilterArgs} {p : String × ArgVal}
    (hp : p ∈ argDict a) : (filterLoopBody p).isSome := by
  unfold argDict at hp
  simp only [List.mem_append] at hp
  rcases hp with ((((((((h | h) | h) | h) | h) | h) | h) | h) | h) | h <;>
    simp [filterLoopBody, mem_optEntry h]

lemma filterMap_eq_map_getD {l : List (String × ArgVal)}
    (h : ∀ p ∈ l, (filterLoopBody p).isSome) :
    l.filterMap filterLoopBody
      = l.map fun p => (filterLoopBody p).getD ⟨.eq, .vBool false⟩ := by
  induction l with
  | nil => rfl
  | cons p l ih =>
      obtain ⟨f, hf⟩ := Option.isSome_iff_exists.mp (h p (List.mem_cons_self p l))
      rw [List.filterMap_cons, List.map_cons, hf,
        ih fun q hq => h q (List.mem_cons_of_mem p hq)]
      simp [hf]

/-- Claim C1: for every call to `create_filters`, each set option emits
exactly one predicate, pairing the comparison operator and target attribute
fixed by the mapping (`date` → equality on `time`'s date component, with the
time of day truncated before the comparison; `start_date`/`end_date` → ≥/≤
on `time`'s date component; the distance, velocity and diameter bounds → ≥/≤
on the corresponding attribute; `hazardous` → equality, including an
explicitly set `False`); unset options emit no predicate. -/
theorem create_filters_emits_mapped_predicates (a : FilterArgs) :
    create_filters a = (specPredicates a, specAttrs a) ∧
    ∀ approach : CloseApproach,
      GetAttribute.get approach "time" = .ok (.vDate approach.time.date) := by
  refine ⟨?_, fun approach => rfl⟩
  rw [create_filters_eq, filterMap_argDict, map_argDict]

/-- Claim C2: for every finite sequence, `limit` with a positive bound yields
exactly `min(n, len(seq))` items — the first `n`, in the original order — and
`limit` with `0` or `None` yields every item unchanged. -/
theorem limit_yields_min_count_in_order {α : Type} (seq : List α) (n : Nat) :
    limit seq (some (n + 1)) = seq.take (n + 1) ∧
    (limit seq (some (n + 1))).length = min (n + 1) seq.length ∧
    limit seq (some 0) = seq ∧
    limit seq none = seq := by
  refine ⟨?_, ?_, rfl, rfl⟩
  · simp [limit]
  · simp [limit]

/-- Claim C3: with every option unset, `create_filters` returns the empty
predicate collection; under the query semantics the empty collection matches
every record, which distinguishes it from a producible predicate collection
that matches no record at all. -/
theorem empty_filterset_matches_everything :
    create_filters {} = ([], []) ∧
    (∀ a : CloseApproach, MatchesAll [] [] a) ∧
    ∃ fs : List AttributeFilter, ∃ attrs : List String,
      (∃ args : FilterArgs, create_filters args = (fs, attrs)) ∧
      ∀ a : CloseApproach, ¬ MatchesAll fs attrs a := by
  refine ⟨rfl, ?_, ?_⟩
  · intro a p hp
    simp [List.zip] at hp
  · refine ⟨[⟨.ge, .vFloat (some 1)⟩, ⟨.le, .vFloat (some 0)⟩],
      ["distance", "distance"],
      ⟨{ distance_min := some 1, distance_max := some 0 }, by rfl⟩, ?_⟩
    intro a h
    have h1 := h (⟨.ge, .vFloat (some 1)⟩, "distance") (by simp)
    have h2 := h (⟨.le, .vFloat (some 0)⟩, "distance") (by simp)
    have e1 : GetAttribute.call ⟨.ge, .vFloat (some 1)⟩ a "distance"
        = .ok (decide ((1 : ℚ) ≤ a.distance)) := rfl
    have e2 : GetAttribute.call ⟨.le, .vFloat (some 0)⟩ a "distance"
        = .ok (decide (a.distance ≤ (0 : ℚ))) := rfl
    rw [e1] at h1
    rw [e2] at h2
    simp only [Except.ok.injEq, decide_eq_true_eq] at h1 h2
    linarith

/-- Claim C4: attribute resolution is polymorphic: an attribute of interest
`hazardous` or `diameter` is fetched from the record's linked NEO, while
`time`, `distance` and `velocity` come from the `CloseApproach` itself
(`time` truncated to its date component); every `GetAttribute` predicate
evaluates its comparator against the value so resolved. -/
theorem attribute_resolution_polymorphic (a : CloseApproach) :
    GetAttribute.get a "hazardous" = .ok (.vBool a.neo.hazardous) ∧
    GetAttribute.get a "diameter" = .ok (.vFloat a.neo.diameter) ∧
    GetAttribute.get a "time" = .ok (.vDate a.time.date) ∧
    GetAttribute.get a "distance" = .ok (.vFloat (some a.distance)) ∧
    GetAttribute.get a "velocity" = .ok (.vFloat (some a.velocity)) ∧
    ∀ (f : AttributeFilter) (attr : String),
      GetAttribute.call f a attr
        = (GetAttribute.get a attr).bind fun v => applyOp f.op v f.value :=
  ⟨rfl, rfl, rfl, rfl, rfl, fun f attr => rfl⟩

/-- Claim C5: an input row with an empty diameter field yields a NEO storing
the NaN sentinel; the sentinel compares equal to no numeric filter value, and
every diameter_min (≥) or diameter_max (≤) predicate evaluated against an
unknown diameter returns false, so the record is excluded from results. -/
theorem unknown_diameter_excluded (info : NeoInfo) (hinfo : info.diameter = .empty)
    (a : CloseApproach) (q : ℚ) (ha : a.neo.diameter = none) :
    (NearEarthObject.fromInfo info).diameter = none ∧
    pyEq (.vFloat a.neo.diameter) (.vFloat (some q)) = false ∧
    GetAttribute.call ⟨.ge, .vFloat (some q)⟩ a "diameter" = .ok false ∧
    GetAttribute.call ⟨.le, .vFloat (some q)⟩ a "diameter" = .ok false ∧
    ¬ MatchesAll [⟨.ge, .vFloat (some q)⟩] ["diameter"] a ∧
    ¬ MatchesAll [⟨.le, .vFloat (some q)⟩] ["diameter"] a := by
  have hge : GetAttribute.call ⟨.ge, .vFloat (some q)⟩ a "diameter"
      = applyOp .ge (.vFloat a.neo.diameter) (.vFloat (some q)) := rfl
  have hle : GetAttribute.call ⟨.le, .vFloat (some q)⟩ a "diameter"
      = applyOp .le (.vFloat a.neo.diameter) (.vFloat (some q)) := rfl
  rw [ha] at hge hle
  simp only [applyOp, pyGe, pyLe] at hge hle
  refine ⟨by simp [NearEarthObject.fromInfo, hinfo], by rw [ha]; rfl, hge, hle, ?_, ?_⟩
  · intro h
    have hm := h (⟨.ge, .vFloat (some q)⟩, "diameter") (by simp)
    rw [hge] at hm
    exact absurd hm (by simp)
  · intro h
    have hm := h (⟨.le, .vFloat (some q)⟩, "diameter") (by simp)
    rw [hle] at hm
    exact absurd hm (by simp)

/-- Witness for claim C5 at a concrete empty-diameter row, a concrete
sentinel-diameter approach and the concrete filter value 5. -/
theorem unknown_diameter_excluded_witness :
    sampleEmptyDiamInfo.diameter = NumField.empty ∧
    sampleNanApproach.neo.diameter = none ∧
    ((NearEarthObject.fromInfo sampleEmptyDiamInfo).diameter = none ∧
     pyEq (.vFloat sampleNanApproach.neo.diameter) (.vFloat (some 5)) = false ∧
     GetAttribute.call ⟨.ge, .vFloat (some 5)⟩ sampleNanApproach "diameter" = .ok false ∧
     GetAttribute.call ⟨.le, .vFloat (some 5)⟩ sampleNanApproach "diameter" = .ok false ∧
     ¬ MatchesAll [⟨.ge, .vFloat (some 5)⟩] ["diameter"] sampleNanApproach ∧
     ¬ MatchesAll [⟨.le, .vFloat (some 5)⟩] ["diameter"] sampleNanApproach) :=
  ⟨rfl, rfl, unknown_diameter_excluded sampleEmptyDiamInfo rfl sampleNanApproach 5 rfl⟩

/-- Claim C6: the base `AttributeFilter.get` has no resolution rule and
raises `UnsupportedCriterionError`; calling such a filter propagates the
error to the caller instead of swallowing it. -/
theorem base_get_raises_unsupported_criterion (f : AttributeFilter)
    (a : CloseApproach) (attr : String) :
    AttributeFilter.baseGet a attr = .error .unsupportedCriterion ∧
    AttributeFilter.call f a attr = .error .unsupportedCriterion :=
  ⟨rfl, rfl⟩

/-- Counterexample to claim C7 as stated: the constructor performs no
validation, so a row whose diameter field is the well-formed numeric string
`-1` produces a NEO whose stored diameter is negative — neither a valid
non-negative number nor the unknown sentinel. -/
theorem neo_diameter_invariant_cex :
    ¬ ((NearEarthObject.fromInfo negDiamInfo).diameter = none ∨
       ∃ q : ℚ, (NearEarthObject.fromInfo negDiamInfo).diameter = some q ∧ 0 ≤ q) := by
  intro h
  have hd : (NearEarthObject.fromInfo negDiamInfo).diameter = some (-1) := rfl
  rcases h with h | ⟨q, hq, hq0⟩
  · rw [hd] at h
    exact Option.noConfusion h
  · rw [hd] at hq
    have hq1 : q = -1 := by
      injection hq with h'
      exact h'.symm
    rw [hq1] at hq0
    norm_num at hq0

/-- Claim C7 amended: for every input row whose diameter field is empty or a
non-negative numeric string, the constructed NEO's diameter is either a
non-negative number or the unknown sentinel, never absent; and for every
input row whatsoever, its hazardous flag is a strict boolean that is true
exactly when the pha field is the string Y. -/
theorem neo_diameter_invariant_amended (info : NeoInfo)
    (hd : ∀ q : ℚ, info.diameter = .num q → 0 ≤ q) :
    ((NearEarthObject.fromInfo info).diameter = none ∨
      ∃ q : ℚ, (NearEarthObject.fromInfo info).diameter = some q ∧ 0 ≤ q) ∧
    ((NearEarthObject.fromInfo info).hazardous = true ↔ info.pha = "Y") := by
  constructor
  · cases hdi : info.diameter with
    | empty =>
        left
        simp [NearEarthObject.fromInfo, hdi]
    | num q =>
        right
        exact ⟨q, by simp [NearEarthObject.fromInfo, hdi], hd q hdi⟩
  · by_cases hy : info.pha = "Y" <;> simp [NearEarthObject.fromInfo, hy]

/-- Witness for the amended claim C7 at a concrete row with a non-negative
diameter field and pha = N. -/
theorem neo_diameter_invariant_amended_witness :
    (∀ q : ℚ, erosInfo.diameter = NumField.num q → 0 ≤ q) ∧
    (((NearEarthObject.fromInfo erosInfo).diameter = none ∨
       ∃ q : ℚ, (NearEarthObject.fromInfo erosInfo).diameter = some q ∧ 0 ≤ q) ∧
     ((NearEarthObject.fromInfo erosInfo).hazardous = true ↔ erosInfo.pha = "Y")) :=
  have hd : ∀ q : ℚ, erosInfo.diameter = NumField.num q → 0 ≤ q := by
    intro q hq
    injection hq with h'
    rw [← h']
    norm_num
  ⟨hd, neo_diameter_invariant_amended erosInfo hd⟩

/-- Claim C8: `NearEarthObject.serialize` computes a dictionary holding the
designation, name, diameter and stringified hazardous flag, but never
returns it: the call returns `None` for every NEO. -/
theorem serialize_computes_but_returns_none (neo : NearEarthObject) :
    NearEarthObject.serialize neo = none ∧
    NearEarthObject.serializeComputed neo =
      { designation := neo.designation
      , name := neo.name
      , diameter_km := neo.diameter
      , potentially_hazardous := if neo.hazardous then "True" else "False" } :=
  ⟨rfl, rfl⟩

/-- Claim C9: for every combination of set options, the two components
returned by `create_filters` have equal length and correspond positionally:
zipping them gives, for each set option in insertion order, exactly the
predicate the loop body builds for that option paired with that option's
target attribute under `mapping_param`. -/
theorem filters_and_attrs_positionally_aligned (a : FilterArgs) :
    ((create_filters a).1).length = ((create_filters a).2).length ∧
    ((create_filters a).1).zip ((create_filters a).2)
      = (argDict a).map fun p =>
          ((filterLoopBody p).getD ⟨.eq, .vBool false⟩, mapping_param p.1) := by
  rw [create_filters_eq,
    filterMap_eq_map_getD fun p hp => isSome_filterLoopBody_argDict hp]
  constructor
  · simp
  · rw [List.zip_map']

/-- Claim C10: a `GetAttribute` predicate's behaviour is independent of the
`attr` argument passed to its constructor — the constructor discards it, so
two filters built with the same operator and reference value but different
`attr` arguments are the same filter and agree on every approach and every
attribute of interest supplied at call time. -/
theorem getattribute_ignores_constructor_attr (op : Op) (v : PyVal)
    (attrA attrB : String) (approach : CloseApproach) (attr_interest : String) :
    GetAttribute.make op v attrA = GetAttribute.make op v attrB ∧
    GetAttribute.call (GetAttribute.make op v attrA) approach attr_interest
      = GetAttribute.call (GetAttribute.make op v attrB) approach attr_interest :=
  ⟨rfl, rfl⟩
